import Mathlib

/-!
Verification of the product-inventory CRUD service.

The development shallowly embeds the JavaScript layers that the claims
touch:

* `validateProductCreate` — the request-validation middleware
  (`Validator.validateProductCreate` in `middlewares/validator`).
* `schemaValidate`, `capFirst`, `repoCreate` — the mongoose product schema
  (`models/product.model`): field validation, the `trim` setters, the
  pre-save capitalisation hook and the defaults applied on `save()`.
* `existsByName`, `findByCategory`, `findLowStock`, `repoUpdateStock`,
  `repoSoftDelete`, `findAll` — `ProductRepository`.
* `createProduct`, `updateStock`, `deleteProduct`, `getProductsByCategory`,
  `getLowStockProducts`, `getStatistics`, `getProductById` —
  `ProductService`.

Modelling conventions: the document store is a `List Product` threaded
explicitly; `_id` is a `Nat`; JavaScript numbers carrying prices are `ℚ`
and stock quantities are `ℤ` (the `isNaN` guards of the validator are
vacuous under these types and are not modelled); the anchored
case-insensitive regex of `existsByName` is modelled as case-insensitive
string equality (exact for names without regex metacharacters); string
lengths are codepoint counts, which agree with JavaScript's UTF-16 lengths
on the ASCII data used here.  Stateful operations return the new store
next to the result; an operation that throws before issuing any write
returns the store unchanged, which is what the sequential JavaScript code
does.
-/

/-- Modelled from the spec: `utils/ApiError` is not among the provided
sources; per the error-normalisation design it is a plain carrier of a
status code and a message. -/
structure ApiErr where
  statusCode : Nat
  message : String
deriving Repr, DecidableEq

/-- A product document as defined by `productSchema` in
`models/product.model` (`timestamps` are reduced to the `createdAt` value
the list operations sort on). -/
structure Product where
  id : Nat
  name : String
  description : String
  price : ℚ
  category : String
  stock : Int
  isActive : Bool
  createdAt : Nat
deriving Repr, DecidableEq

/-- A `POST /api/products` body: every field is optional at the boundary,
presence is what the validator checks. -/
structure CreateReq where
  name : Option String
  description : Option String
  price : Option ℚ
  stock : Option Int
  category : Option String
deriving Repr, DecidableEq

/-- JavaScript `String.prototype.trim`: strip whitespace from both ends
(structural over the character list so that proofs can evaluate it). -/
def jsTrim (s : String) : String :=
  String.mk (((s.data.dropWhile Char.isWhitespace).reverse.dropWhile Char.isWhitespace).reverse)

/-- JavaScript `String.prototype.toLowerCase`, restricted to the ASCII
case mapping the data here uses. -/
def jsToLower (s : String) : String :=
  String.mk (s.data.map Char.toLower)

/-- Status code of an errored operation, `none` on success. -/
def errCode {α : Type} : Except ApiErr α → Option Nat
  | Except.error e => some e.statusCode
  | Except.ok _ => none

/-- The closed category set used by the validator middleware and by
`ProductService.getProductsByCategory`. -/
def validCategories : List String := ["electronics", "clothing", "food", "books", "other"]

/-- The category enum of the mongoose `productSchema`. -/
def schemaCategories : List String := ["Electrónica", "Ropa", "Hogar", "Libros", "Otros"]

/-- `Validator.validateProductCreate`: collects every violation in order
(name, description, price, stock, category) and the route rejects with a
single 400 when the list is non-empty. -/
def validateProductCreate (req : CreateReq) : List String :=
  (match req.name with
   | none => ["El nombre es obligatorio"]
   | some s =>
     if jsTrim s = "" then ["El nombre es obligatorio"]
     else if s.length < 3 || s.length > 100 then
       ["El nombre debe tener entre 3 y 100 caracteres"]
     else []) ++
  (match req.description with
   | none => ["La descripción es obligatoria"]
   | some s =>
     if jsTrim s = "" then ["La descripción es obligatoria"]
     else if s.length < 10 || s.length > 500 then
       ["La descripción debe tener entre 10 y 500 caracteres"]
     else []) ++
  (match req.price with
   | none => ["El precio es obligatorio"]
   | some p => if p < 0 then ["El precio debe ser un número positivo"] else []) ++
  (match req.stock with
   | none => []
   | some st => if st < 0 then ["El stock debe ser un número positivo"] else []) ++
  (match req.category with
   | none => ["La categoría es obligatoria"]
   | some c =>
     if c = "" then ["La categoría es obligatoria"]
     else if !(validCategories.contains c) then
       ["Categoría inválida. Opciones: electronics, clothing, food, books, other"]
     else [])

/-- Document validation run by mongoose on `save()`: `required`,
`minlength`/`maxlength`, `min` and the category `enum` of `productSchema`
(first failing validator per path, message texts as written in the
schema). -/
def schemaValidate (name description : String) (price : ℚ) (category : String)
    (stock : Int) : List String :=
  (if name = "" then ["El nombre del producto es obligatorio"]
   else if name.length < 6 then ["El nombre del producto debe tener al menos 3 caracteres"]
   else if name.length > 100 then ["El nombre del producto no debe exceder los 100 caracteres"]
   else []) ++
  (if description = "" then ["La descripción del producto es obligatoria"]
   else if description.length < 20 then
     ["La descripción del producto debe tener al menos 10 caracteres"]
   else if description.length > 500 then
     ["La descripción del producto no debe exceder los 500 caracteres"]
   else []) ++
  (if price < 0 then ["El precio del producto no puede ser negativo"] else []) ++
  (if category = "" then ["La categoría del producto es obligatoria"]
   else if !(schemaCategories.contains category) then
     [category ++ " no en una categoría válida"]
   else []) ++
  (if stock < 0 then ["El stock del producto no puede ser negativo"] else [])

/-- The pre-save hook of `productSchema`: upper-case the first character of
the name (`charAt(0).toUpperCase() + slice(1)`). -/
def capFirst (s : String) : String :=
  match s.data with
  | [] => s
  | c :: cs => String.mk (c.toUpper :: cs)

/-- Fresh `_id` assigned by the store at creation. -/
def freshId (store : List Product) : Nat :=
  (store.map (fun p => p.id)).foldr max 0 + 1

/-- `ProductRepository.create`: `new Product(data)` applies the `trim`
setters and the `stock` default, `save()` validates against the schema
(mongoose validation errors surface through the error handler as a single
400 whose message joins the field messages with a semicolon) and then runs
the capitalisation hook before persisting. -/
def repoCreate (store : List Product) (name description : String) (price : ℚ)
    (category : String) (stock : Option Int) (now : Nat) :
    Except ApiErr (Product × List Product) :=
  let name' := jsTrim name
  let desc' := jsTrim description
  let st := stock.getD 0
  let errs := schemaValidate name' desc' price category st
  if errs = [] then
    let prod : Product :=
      ⟨freshId store, capFirst name', desc', price, category, st, true, now⟩
    Except.ok (prod, prod :: store)
  else Except.error ⟨400, String.intercalate "; " errs⟩

/-- `ProductRepository.existsByName`: anchored case-insensitive match,
optionally excluding one id. -/
def existsByName (store : List Product) (name : String) (excludeId : Option Nat) : Bool :=
  store.any (fun p =>
    jsToLower p.name == jsToLower name &&
      (match excludeId with
       | none => true
       | some i => !(p.id == i)))

/-- `ProductService.createProduct`: duplicate-name check first, then the
minimum-price business rule, then persistence. -/
def createProduct (store : List Product) (req : CreateReq) (now : Nat) :
    Except ApiErr (Product × List Product) :=
  if existsByName store (req.name.getD "") none then
    Except.error ⟨400, "Ya existe un producto con ese nombre"⟩
  else if req.price.getD 0 < mkRat 1 100 then
    Except.error ⟨400, "El precio debe ser mayor a $0.01"⟩
  else
    repoCreate store (req.name.getD "") (req.description.getD "")
      (req.price.getD 0) (req.category.getD "") req.stock now

/-- The `POST /api/products` route: the validator middleware runs before
the controller hands the body to the service. -/
def createProductPipeline (store : List Product) (req : CreateReq) (now : Nat) :
    Except ApiErr (Product × List Product) :=
  let errs := validateProductCreate req
  if errs = [] then createProduct store req now
  else Except.error ⟨400, String.intercalate "; " errs⟩

/-- `ProductRepository.findById` (`Product.findById`): the document with
the given `_id`, if any. -/
def findById (store : List Product) (id : Nat) : Option Product :=
  match store with
  | [] => none
  | a :: as => if a.id == id then some a else findById as id

/-- `ProductRepository.findByCategory`: active documents of one category. -/
def findByCategory (category : String) (store : List Product) : List Product :=
  store.filter (fun p => p.category == category && p.isActive)

/-- `ProductRepository.findLowStock`: active documents at or below the
threshold. -/
def findLowStock (threshold : Int) (store : List Product) : List Product :=
  store.filter (fun p => p.stock ≤ threshold && p.isActive)

/-- `ProductRepository.updateStock`: `findByIdAndUpdate` with
`$inc stock quantity` and `new: true` — increments the single document
with the given `_id` and returns the updated document. -/
def repoUpdateStock (store : List Product) (id : Nat) (quantity : Int) :
    Option Product × List Product :=
  match store with
  | [] => (none, [])
  | a :: as =>
    if a.id == id then
      (some { a with stock := a.stock + quantity },
       { a with stock := a.stock + quantity } :: as)
    else
      let r := repoUpdateStock as id quantity
      (r.1, a :: r.2)

/-- `ProductRepository.softDelete`: `findByIdAndUpdate` setting
`isActive: false` with `new: true`. -/
def repoSoftDelete (store : List Product) (id : Nat) :
    Option Product × List Product :=
  match store with
  | [] => (none, [])
  | a :: as =>
    if a.id == id then
      (some { a with isActive := false }, { a with isActive := false } :: as)
    else
      let r := repoSoftDelete as id
      (r.1, a :: r.2)

/-- `ProductService.getProductById`. -/
def getProductById (store : List Product) (id : Nat) : Except ApiErr Product :=
  match findById store id with
  | none => Except.error ⟨404, "Producto no encontrado"⟩
  | some p => Except.ok p

/-- `ProductService.updateStock`: not-found check, then the non-negative
new-stock business rule, then the repository increment.  The store is
returned next to the result; on an error it is the input store, since the
service throws before issuing the write. -/
def updateStock (store : List Product) (id : Nat) (quantity : Int) :
    Except ApiErr (Option Product) × List Product :=
  match findById store id with
  | none => (Except.error ⟨404, "Producto no encontrado"⟩, store)
  | some product =>
    if product.stock + quantity < 0 then
      (Except.error ⟨400, "Stock insuficiente. Stock actual: " ++ toString product.stock⟩,
       store)
    else
      let r := repoUpdateStock store id quantity
      (Except.ok r.1, r.2)

/-- `ProductService.deleteProduct`: not-found check, already-inactive
check, then the repository soft delete. -/
def deleteProduct (store : List Product) (id : Nat) :
    Except ApiErr (Option Product) × List Product :=
  match findById store id with
  | none => (Except.error ⟨404, "Producto no encontrado"⟩, store)
  | some product =>
    if !product.isActive then
      (Except.error ⟨400, "El producto ya está inactivo"⟩, store)
    else
      let r := repoSoftDelete store id
      (Except.ok r.1, r.2)

/-- `ProductService.getProductsByCategory`: category-membership business
rule, then the repository query. -/
def getProductsByCategory (category : String) (store : List Product) :
    Except ApiErr (List Product) :=
  if validCategories.contains category then
    Except.ok (findByCategory category store)
  else
    Except.error ⟨400, "Categoría inválida. Opciones: electronics, clothing, food, books, other"⟩

/-- `ProductService.getLowStockProducts`: non-negative threshold business
rule, then the repository query. -/
def getLowStockProducts (threshold : Int) (store : List Product) :
    Except ApiErr (List Product) :=
  if threshold < 0 then
    Except.error ⟨400, "El umbral debe ser un número positivo"⟩
  else
    Except.ok (findLowStock threshold store)

/-- Insert a product into a list sorted by the comparator. -/
def insertByLe (le : Product → Product → Bool) (p : Product) :
    List Product → List Product
  | [] => [p]
  | q :: qs => if le p q then p :: q :: qs else q :: insertByLe le p qs

/-- The store-side sort of `findAll`, as an insertion sort over the
comparator (the claims depend on the result being an ordering-independent
permutation). -/
def sortProducts (le : Product → Product → Bool) : List Product → List Product
  | [] => []
  | p :: ps => insertByLe le p (sortProducts le ps)

/-- Comparator for the default `sortBy = createdAt, sortOrder = desc`. -/
def createdDesc (a b : Product) : Bool :=
  b.createdAt ≤ a.createdAt

/-- The pagination block `ProductRepository.findAll` returns
(`totalPages` is `Math.ceil(total / limit)`). -/
structure PageInfo where
  total : Nat
  page : Nat
  totalPages : Nat
  hasMore : Bool
deriving Repr, DecidableEq

/-- Result shape of `ProductRepository.findAll`. -/
structure FindAllResult where
  products : List Product
  pagination : PageInfo
deriving Repr, DecidableEq

/-- `ProductRepository.findAll`: filter, sort, `skip = (page-1)*limit`,
`limit`, and the pagination block with the total count of matching
documents and `hasMore = skip + products.length < total`. -/
def findAll (filter : Product → Bool) (page limit : Nat)
    (le : Product → Product → Bool) (store : List Product) : FindAllResult :=
  let skip := (page - 1) * limit
  let filtered := store.filter filter
  let sorted := sortProducts le filtered
  let products := (sorted.drop skip).take limit
  let total := filtered.length
  ⟨products,
   ⟨total, page, (total + limit - 1) / limit,
    decide (skip + products.length < total)⟩⟩

/-- Category histogram of `getStatistics` (`byCategory`), an association
list in first-appearance order mirroring the JavaScript object. -/
def bumpCategory (acc : List (String × Nat)) (c : String) : List (String × Nat) :=
  match acc with
  | [] => [(c, 1)]
  | (k, v) :: rest => if k = c then (k, v + 1) :: rest else (k, v) :: bumpCategory rest c

/-- Aggregates returned by `ProductService.getStatistics`. -/
structure Statistics where
  totalProducts : Nat
  activeProducts : Nat
  inactiveProducts : Nat
  lowStockProducts : Nat
  totalInventoryValue : ℚ
  byCategory : List (String × Nat)

/-- `ProductService.getStatistics`: one `findAll()` call with no filters
and no options (hence the defaults `page = 1`, `limit = 10`,
`sortBy = createdAt`, `sortOrder = desc`) and one `findLowStock()` call
with the default threshold 10; every aggregate except `totalProducts` is
computed by scanning `allProducts.products`. -/
def getStatistics (store : List Product) : Statistics :=
  let allProducts := findAll (fun _ => true) 1 10 createdDesc store
  let lowStock := findLowStock 10 store
  ⟨allProducts.pagination.total,
   (allProducts.products.filter (fun p => p.isActive)).length,
   (allProducts.products.filter (fun p => !p.isActive)).length,
   lowStock.length,
   allProducts.products.foldl (fun sum p => sum + p.price * (p.stock : ℚ)) 0,
   allProducts.products.foldl (fun acc p => bumpCategory acc p.category) []⟩

/-- The create body of the specification's worked example. -/
def widgetReq : CreateReq :=
  ⟨some "Widget Pro", some "A very fine widget indeed", some (mkRat 999 100), some 5,
   some "electronics"⟩

/-- Worked example, price varied. -/
def priceReq (pr : ℚ) : CreateReq :=
  ⟨some "Widget Pro", some "A very fine widget indeed", some pr, some 5,
   some "electronics"⟩

/-- A body whose name has exactly 3 characters and whose description has
exactly 10, the lower bounds the request validator accepts. -/
def reqA : CreateReq :=
  ⟨some "Abc", some "0123456789", some (mkRat 999 100), some 5, some "electronics"⟩

/-- An existing product named Widget. -/
def wProd : Product :=
  ⟨1, "Widget", "Una descripción válida", 5, "electronics", 0, true, 0⟩

/-- A one-product store used for the duplicate-name scenarios. -/
def store1 : List Product := [wProd]

/-- A create body whose name duplicates `wProd` up to case. -/
def reqDup : CreateReq :=
  ⟨some "widget", some "Otra descripción válida", some (mkRat 999 100), some 1,
   some "electronics"⟩

/-- A lamp with five units in stock, the target of the stock-adjustment
witness. -/
def prod3 : Product :=
  ⟨3, "Lamp", "Una lámpara de escritorio", mkRat 499 100, "electronics", 5, true, 0⟩

/-- Two-product store containing `prod3` in second position. -/
def store3 : List Product :=
  [⟨1, "Mouse", "Un ratón inalámbrico", mkRat 15 1, "electronics", 2, true, 1⟩, prod3]

/-- An active product, soft-delete target. -/
def activeProd8 : Product :=
  ⟨1, "Silla", "Una silla de oficina", mkRat 30 1, "other", 3, true, 0⟩

/-- An already-inactive product. -/
def inactiveProd8 : Product :=
  ⟨2, "Mesa", "Una mesa de oficina", mkRat 60 1, "other", 1, false, 0⟩

/-- Store holding one active and one inactive product. -/
def store8 : List Product := [activeProd8, inactiveProd8]

/-- An active electronics product with low stock. -/
def activeProd9 : Product :=
  ⟨1, "Tv", "Un televisor grande", mkRat 100 1, "electronics", 5, true, 0⟩

/-- An inactive electronics product with low stock. -/
def inactiveProd9 : Product :=
  ⟨2, "Radio", "Una radio pequeña", mkRat 20 1, "electronics", 5, false, 0⟩

/-- Store for the category/low-stock lookups. -/
def store9 : List Product := [activeProd9, inactiveProd9]

/-- Generator of identical-looking products with distinct ids and
creation times. -/
def mkProd (i : Nat) : Product :=
  ⟨i + 1, "Producto", "FillerDescription", mkRat 1 1, "other", 0, true, i⟩

/-- Fifteen-record store for the pagination example. -/
def store15 : List Product := (List.range 15).map mkProd

/-- Eleven-record store, one more than the default page size. -/
def store11 : List Product := (List.range 11).map mkProd

/-- Small mixed store for the statistics witness. -/
def store4w : List Product :=
  [⟨1, "Teclado", "Un teclado mecánico", mkRat 45 1, "electronics", 2, true, 5⟩,
   ⟨2, "Cable", "Un cable de red largo", mkRat 15 1, "electronics", 0, false, 3⟩]

/-- Claim C2: the worked example is rejected with a 400, not created with
a 201: the schema's category enum (Spanish values) rejects the category
"electronics" that the request validator accepted. -/
theorem create_widget_pro_rejected :
    errCode (createProductPipeline [] widgetReq 0) = some 400 := by
  decide

/-- Inserting into the sorted list permutes consing. -/
theorem insertByLe_perm (le : Product → Product → Bool) (p : Product)
    (l : List Product) : (insertByLe le p l).Perm (p :: l) := by
  induction l with
  | nil => exact List.Perm.refl _
  | cons q qs ih =>
    rw [insertByLe]
    by_cases h : le p q = true
    · rw [if_pos h]
    · rw [if_neg h]
      exact (ih.cons q).trans (List.Perm.swap p q qs)

/-- The store-side sort is a permutation of its input. -/
theorem sortProducts_perm (le : Product → Product → Bool) (l : List Product) :
    (sortProducts le l).Perm l := by
  induction l with
  | nil => exact List.Perm.refl _
  | cons p ps ih => exact (insertByLe_perm le p _).trans (ih.cons p)

/-- Folding an accumulating sum equals the sum of the mapped list. -/
theorem foldl_add_map (f : Product → ℚ) (l : List Product) (a : ℚ) :
    l.foldl (fun sum p => sum + f p) a = a + (l.map f).sum := by
  induction l generalizing a with
  | nil => simp
  | cons p ps ih =>
    rw [List.foldl_cons, ih, List.map_cons, List.sum_cons]
    ring

/-- When a document with the requested id is found, the stock increment
updates exactly that document and it is found afterwards. -/
theorem repoUpdateStock_found (store : List Product) (id : Nat) (q : Int)
    (p : Product) (h : findById store id = some p) :
    (repoUpdateStock store id q).1 = some { p with stock := p.stock + q } ∧
    findById (repoUpdateStock store id q).2 id =
      some { p with stock := p.stock + q } := by
  induction store with
  | nil => simp [findById] at h
  | cons a as ih =>
    by_cases hid : (a.id == id) = true
    · rw [findById, if_pos hid] at h
      cases h
      refine ⟨by simp [repoUpdateStock, hid], ?_⟩
      simp [repoUpdateStock, hid, findById]
    · rw [findById, if_neg (by simp [hid])] at h
      have ih2 := ih h
      constructor
      · simp only [repoUpdateStock, if_neg (by simp [hid] : ¬ (a.id == id) = true)]
        exact ih2.1
      · simp only [repoUpdateStock, if_neg (by simp [hid] : ¬ (a.id == id) = true), findById]
        exact ih2.2

/-- When a document with the requested id is found, the soft delete
deactivates exactly that document and it is found afterwards. -/
theorem repoSoftDelete_found (store : List Product) (id : Nat)
    (p : Product) (h : findById store id = some p) :
    (repoSoftDelete store id).1 = some { p with isActive := false } ∧
    findById (repoSoftDelete store id).2 id =
      some { p with isActive := false } := by
  induction store with
  | nil => simp [findById] at h
  | cons a as ih =>
    by_cases hid : (a.id == id) = true
    · rw [findById, if_pos hid] at h
      cases h
      refine ⟨by simp [repoSoftDelete, hid], ?_⟩
      simp [repoSoftDelete, hid, findById]
    · rw [findById, if_neg (by simp [hid])] at h
      have ih2 := ih h
      constructor
      · simp only [repoSoftDelete, if_neg (by simp [hid] : ¬ (a.id == id) = true)]
        exact ih2.1
      · simp only [repoSoftDelete, if_neg (by simp [hid] : ¬ (a.id == id) = true), findById]
        exact ih2.2

/-- Claim C3: for a product with current stock `s` and a delta `d`, a
negative `s + d` is rejected with a 400 and the store is unchanged, while
a non-negative `s + d` succeeds and sets the stock to exactly `s + d`. -/
theorem updateStock_delta_spec (store : List Product) (id : Nat) (q : Int)
    (p : Product) (h : findById store id = some p) :
    (p.stock + q < 0 →
       (updateStock store id q).1 =
         Except.error ⟨400, "Stock insuficiente. Stock actual: " ++ toString p.stock⟩ ∧
       (updateStock store id q).2 = store) ∧
    (0 ≤ p.stock + q →
       (updateStock store id q).1 = Except.ok (some { p with stock := p.stock + q }) ∧
       findById (updateStock store id q).2 id =
         some { p with stock := p.stock + q }) := by
  constructor
  · intro hneg
    simp only [updateStock, h]
    rw [if_pos hneg]
    exact ⟨rfl, rfl⟩
  · intro hpos
    have hnlt : ¬ p.stock + q < 0 := not_lt.mpr hpos
    have hr := repoUpdateStock_found store id q p h
    simp only [updateStock, h]
    rw [if_neg hnlt]
    exact ⟨by rw [hr.1], hr.2⟩

/-- Witness for C3 at a concrete store: stock 5 with delta -7 is rejected
leaving the store intact, and delta 2 yields stock 7. -/
theorem updateStock_delta_spec_witness :
    findById store3 3 = some prod3 ∧
    ((updateStock store3 3 (-7)).1 =
       Except.error ⟨400, "Stock insuficiente. Stock actual: " ++ toString prod3.stock⟩ ∧
     (updateStock store3 3 (-7)).2 = store3) ∧
    ((updateStock store3 3 2).1 = Except.ok (some { prod3 with stock := prod3.stock + 2 }) ∧
     findById (updateStock store3 3 2).2 3 = some { prod3 with stock := prod3.stock + 2 }) :=
  ⟨by decide,
   (updateStock_delta_spec store3 3 (-7) prod3 (by decide)).1 (by decide),
   (updateStock_delta_spec store3 3 2 prod3 (by decide)).2 (by decide)⟩

/-- Claim C8: soft-deleting an already-inactive product fails with a 400
and leaves the store unchanged; soft-deleting an active one succeeds,
flips `isActive` to false, and the record is still found by id. -/
theorem deleteProduct_soft_delete_spec (store : List Product) (id : Nat)
    (p : Product) (h : findById store id = some p) :
    (p.isActive = false →
       (deleteProduct store id).1 = Except.error ⟨400, "El producto ya está inactivo"⟩ ∧
       (deleteProduct store id).2 = store) ∧
    (p.isActive = true →
       (deleteProduct store id).1 = Except.ok (some { p with isActive := false }) ∧
       findById (deleteProduct store id).2 id = some { p with isActive := false }) := by
  constructor
  · intro hin
    simp only [deleteProduct, h]
    rw [if_pos (show (!p.isActive) = true by simp [hin])]
    exact ⟨rfl, rfl⟩
  · intro hac
    have hr := repoSoftDelete_found store id p h
    simp only [deleteProduct, h]
    rw [if_neg (show ¬ (!p.isActive) = true by simp [hac])]
    exact ⟨by rw [hr.1], hr.2⟩

/-- Witness for C8 at a concrete store: deleting the inactive product is
a 400 and changes nothing, deleting the active one deactivates it and it
stays retrievable. -/
theorem deleteProduct_soft_delete_spec_witness :
    findById store8 2 = some inactiveProd8 ∧ inactiveProd8.isActive = false ∧
    ((deleteProduct store8 2).1 = Except.error ⟨400, "El producto ya está inactivo"⟩ ∧
     (deleteProduct store8 2).2 = store8) ∧
    findById store8 1 = some activeProd8 ∧ activeProd8.isActive = true ∧
    ((deleteProduct store8 1).1 = Except.ok (some { activeProd8 with isActive := false }) ∧
     findById (deleteProduct store8 1).2 1 = some { activeProd8 with isActive := false }) :=
  ⟨by decide, by decide,
   (deleteProduct_soft_delete_spec store8 2 inactiveProd8 (by decide)).1 (by decide),
   by decide, by decide,
   (deleteProduct_soft_delete_spec store8 1 activeProd8 (by decide)).2 (by decide)⟩

/-- Claim C10: a successful soft delete changes only `isActive`: the name,
description, price, category and stock of the stored record are unchanged. -/
theorem soft_delete_frame (store : List Product) (id : Nat) (p : Product)
    (h : findById store id = some p) (hac : p.isActive = true) :
    (findById (deleteProduct store id).2 id).map
        (fun x => (x.name, x.description, x.price, x.category, x.stock)) =
      some (p.name, p.description, p.price, p.category, p.stock) := by
  have hr := repoSoftDelete_found store id p h
  simp only [deleteProduct, h]
  rw [if_neg (show ¬ (!p.isActive) = true by simp [hac])]
  rw [hr.2]
  rfl

/-- Witness for C10: the concrete soft delete of `activeProd8` keeps every
field but `isActive`. -/
theorem soft_delete_frame_witness :
    findById store8 1 = some activeProd8 ∧ activeProd8.isActive = true ∧
    (findById (deleteProduct store8 1).2 1).map
        (fun x => (x.name, x.description, x.price, x.category, x.stock)) =
      some (activeProd8.name, activeProd8.description, activeProd8.price,
        activeProd8.category, activeProd8.stock) :=
  ⟨by decide, by decide,
   soft_delete_frame store8 1 activeProd8 (by decide) (by decide)⟩

/-- Claim C9: the category lookup and the low-stock lookup only ever
return products whose `isActive` flag is true. -/
theorem category_and_low_stock_only_active (store : List Product)
    (c : String) (t : Int) (lc lt : List Product)
    (hc : getProductsByCategory c store = Except.ok lc)
    (ht : getLowStockProducts t store = Except.ok lt) :
    ∀ p : Product, p ∈ lc ∨ p ∈ lt → p.isActive = true := by
  intro p hp
  have hlc : ∀ x : Product, x ∈ lc → x.isActive = true := by
    intro x hx
    by_cases hval : validCategories.contains c = true
    · rw [getProductsByCategory, if_pos hval] at hc
      cases hc
      have := List.of_mem_filter hx
      exact (Bool.and_eq_true _ _).mp this |>.2
    · rw [getProductsByCategory, if_neg hval] at hc
      cases hc
  have hlt : ∀ x : Product, x ∈ lt → x.isActive = true := by
    intro x hx
    by_cases hth : (t < 0)
    · rw [getLowStockProducts, if_pos hth] at ht
      cases ht
    · rw [getLowStockProducts, if_neg hth] at ht
      cases ht
      have := List.of_mem_filter hx
      exact (Bool.and_eq_true _ _).mp this |>.2
  cases hp with
  | inl h => exact hlc p h
  | inr h => exact hlt p h

/-- Witness for C9: on a store with one active and one inactive
electronics product both lookups return only the active one. -/
theorem category_and_low_stock_only_active_witness :
    getProductsByCategory "electronics" store9 = Except.ok [activeProd9] ∧
    getLowStockProducts 10 store9 = Except.ok [activeProd9] ∧
    activeProd9.isActive = true :=
  ⟨rfl, rfl,
   category_and_low_stock_only_active store9 "electronics" 10 [activeProd9] [activeProd9]
     rfl rfl activeProd9 (Or.inl (List.mem_singleton.mpr rfl))⟩

/-- Claim C1 (counterexample): creating "widget" against a store already
containing "Widget" fails, but the error's status code is 400, not the
conflict code 409 the claim states. -/
theorem create_duplicate_name_not_conflict409 :
    errCode (createProductPipeline store1 reqDup 0) = some 400 ∧
    errCode (createProductPipeline store1 reqDup 0) ≠ some 409 := by
  constructor
  · decide
  · decide

/-- Claim C1 (amended): a create request whose name duplicates an existing
product's name ignoring case always fails, and the resulting error has
status code 400 — the service's duplicate check throws 400, and the 409
branch of the error normaliser is reachable only from a store-level
duplicate-key error, which cannot occur since no unique index is declared
on the name. -/
theorem create_duplicate_name_fails_400 (store : List Product)
    (req : CreateReq) (now : Nat) (nm : String) (p : Product)
    (hn : req.name = some nm) (hp : p ∈ store)
    (heq : jsToLower p.name = jsToLower nm) :
    errCode (createProductPipeline store req now) = some 400 := by
  by_cases hv : validateProductCreate req = []
  · have hex : existsByName store (req.name.getD "") none = true := by
      unfold existsByName
      apply List.any_eq_true.mpr
      exact ⟨p, hp, by simp [hn, heq]⟩
    simp only [createProductPipeline, if_pos hv, createProduct]
    rw [if_pos hex]
    rfl
  · simp only [createProductPipeline, if_neg hv]
    rfl

/-- Witness for the amended C1 at the concrete duplicate request. -/
theorem create_duplicate_name_fails_400_witness :
    reqDup.name = some "widget" ∧ wProd ∈ store1 ∧
    jsToLower wProd.name = jsToLower "widget" ∧
    errCode (createProductPipeline store1 reqDup 0) = some 400 :=
  ⟨rfl, by unfold store1; exact List.mem_singleton.mpr rfl, by decide,
   create_duplicate_name_fails_400 store1 reqDup 0 "widget" wProd rfl
     (by unfold store1; exact List.mem_singleton.mpr rfl) (by decide)⟩

/-- Claim C5: `findAll` skips `(page-1)*limit` records of the sorted
filtered list, reports the total matching count, and computes
`hasMore = skip + returned < total`; in particular on 15 records with
`page = 2` and `limit = 10` it returns 5 records and `hasMore = false`. -/
theorem findAll_pagination_spec :
    (∀ (f : Product → Bool) (le : Product → Product → Bool)
       (page limit : Nat) (store : List Product),
       (findAll f page limit le store).pagination.total = (store.filter f).length ∧
       (findAll f page limit le store).products =
         ((sortProducts le (store.filter f)).drop ((page - 1) * limit)).take limit ∧
       (findAll f page limit le store).products.length =
         min limit ((store.filter f).length - (page - 1) * limit) ∧
       ((findAll f page limit le store).pagination.hasMore = true ↔
         (page - 1) * limit + (findAll f page limit le store).products.length <
           (store.filter f).length)) ∧
    ((findAll (fun _ => true) 2 10 createdDesc store15).products.length = 5 ∧
     (findAll (fun _ => true) 2 10 createdDesc store15).pagination.hasMore = false) := by
  constructor
  · intro f le page limit store
    refine ⟨rfl, rfl, ?_, ?_⟩
    · show (((sortProducts le (store.filter f)).drop ((page - 1) * limit)).take limit).length = _
      rw [List.length_take, List.length_drop,
        (sortProducts_perm le (store.filter f)).length_eq]
    · exact decide_eq_true_iff
  · exact ⟨by decide, by decide⟩

/-- Claim C4 (counterexample): with eleven products, all of them active,
the statistics operation reports 10 active products — it scans only the
default first page of `findAll()` — while the count of active products in
the store is 11. -/
theorem getStatistics_eleven_products_active_count :
    (getStatistics store11).activeProducts = 10 ∧
    (store11.filter (fun p => p.isActive)).length = 11 := by
  exact ⟨by decide, by decide⟩

/-- Claim C4 (amended): `totalProducts` equals the count of all products
for every store state, while `activeProducts`, `inactiveProducts` and
`totalInventoryValue` equal the claimed whole-store aggregates only when
the store holds at most 10 products — the default page that the
parameterless `findAll()` call returns and the only records
`getStatistics` scans. -/
theorem getStatistics_total_and_first_page_aggregates (store : List Product) :
    (getStatistics store).totalProducts = store.length ∧
    (store.length ≤ 10 →
      (getStatistics store).activeProducts =
        (store.filter (fun p => p.isActive)).length ∧
      (getStatistics store).inactiveProducts =
        (store.filter (fun p => !p.isActive)).length ∧
      (getStatistics store).totalInventoryValue =
        (store.map (fun p => p.price * (p.stock : ℚ))).sum) := by
  have hfil : store.filter (fun _ => true) = store := List.filter_true store
  constructor
  · show (store.filter (fun _ => true)).length = store.length
    rw [hfil]
  · intro hle
    have hperm : (sortProducts createdDesc store).Perm store := sortProducts_perm _ _
    have hprods : (findAll (fun _ => true) 1 10 createdDesc store).products =
        sortProducts createdDesc store := by
      show ((sortProducts createdDesc (store.filter (fun _ => true))).drop
          ((1 - 1) * 10)).take 10 = sortProducts createdDesc store
      rw [hfil, show (1 - 1) * 10 = 0 from rfl, List.drop_zero]
      exact List.take_of_length_le (by rw [hperm.length_eq]; exact hle)
    refine ⟨?_, ?_, ?_⟩
    · show ((findAll (fun _ => true) 1 10 createdDesc store).products.filter
          (fun p => p.isActive)).length = _
      rw [hprods]
      exact (hperm.filter _).length_eq
    · show ((findAll (fun _ => true) 1 10 createdDesc store).products.filter
          (fun p => !p.isActive)).length = _
      rw [hprods]
      exact (hperm.filter _).length_eq
    · show (findAll (fun _ => true) 1 10 createdDesc store).products.foldl
          (fun sum p => sum + p.price * (p.stock : ℚ)) 0 = _
      rw [hprods, foldl_add_map, zero_add]
      exact (hperm.map _).sum_eq

/-- Witness for the amended C4 at a concrete two-product store. -/
theorem getStatistics_total_and_first_page_aggregates_witness :
    store4w.length ≤ 10 ∧
    ((getStatistics store4w).activeProducts =
       (store4w.filter (fun p => p.isActive)).length ∧
     (getStatistics store4w).inactiveProducts =
       (store4w.filter (fun p => !p.isActive)).length ∧
     (getStatistics store4w).totalInventoryValue =
       (store4w.map (fun p => p.price * (p.stock : ℚ))).sum) :=
  ⟨by decide, (getStatistics_total_and_first_page_aggregates store4w).2 (by decide)⟩

/-- Claim C6: creates with price 0 and price 0.005 are rejected with the
business-rule 400, as the claim states; but the otherwise-valid create
with price 0.01 is rejected with a 400 as well — the schema's category
enum rejects every category the request validator accepts — whereas the
claim expects it to succeed. -/
theorem create_price_boundaries_all_rejected :
    errCode (createProductPipeline [] (priceReq (mkRat 0 1)) 0) = some 400 ∧
    errCode (createProductPipeline [] (priceReq (mkRat 5 1000)) 0) = some 400 ∧
    errCode (createProductPipeline [] (priceReq (mkRat 1 100)) 0) = some 400 := by
  exact ⟨by decide, by decide, by decide⟩

/-- Claim C7: the request validator accepts a 3-character name with a
10-character description, as the claim states, but the create still fails
with a 400: the document schema enforces minimum lengths 6 and 20 — its
own error messages say 3 and 10 — so lengths the claim says are accepted
are rejected at save time even with a schema-valid category. -/
theorem create_name3_desc10_schema_rejects :
    validateProductCreate reqA = [] ∧
    errCode (createProductPipeline [] reqA 0) = some 400 ∧
    schemaValidate "Abc" "0123456789" (mkRat 999 100) "Libros" 5 =
      ["El nombre del producto debe tener al menos 3 caracteres",
       "La descripción del producto debe tener al menos 10 caracteres"] := by
  exact ⟨by decide, by decide, by decide⟩
